import Mathlib

/-!
Shallow embedding of `scraper.py` from the employee-data-scraper repository:
the fetch/retry/normalize pipeline (`scrape_employees`) and the query engine
(`dynamic_cli_query`), together with theorems settling the specification
claims about them.
-/

set_option autoImplicit false

namespace Scraper

/-- A raw JSON/pandas cell value as it appears in a `RawRecord`.
`null` models a JSON `null` (Python `None`); `nan` models the pandas `NaN`
placed in a frame cell when the field is absent from a record. -/
inductive Raw where
  | str : String → Raw
  | int : Int → Raw
  | null : Raw
  | nan : Raw
deriving DecidableEq, Repr

/-- Python `str(p)` on the raw values above: strings are unchanged, integers
print as decimal (with a leading minus for negatives), `str(None) = "None"`,
`str(nan) = "nan"`. -/
def pyStr : Raw → String
  | .str s => s
  | .int n => toString n
  | .null => "None"
  | .nan => "nan"

/-- Python `str.lower()` restricted to ASCII letters, which is all the
pipeline applies it to (phone texts and the fixed words "None"/"nan"). -/
def lowerChar (c : Char) : Char :=
  if 'A' ≤ c ∧ c ≤ 'Z' then Char.ofNat (c.toNat + 32) else c

/-- Python `'x' in s.lower()`: the text contains the letter x,
case-insensitively. -/
def containsX (s : String) : Bool :=
  (s.data.map lowerChar).contains 'x'

/-- Value of a decimal digit character, `none` for a non-digit. -/
def digitVal (c : Char) : Option Nat :=
  if '0' ≤ c ∧ c ≤ '9' then some (c.toNat - '0'.toNat) else none

/-- Accumulating parse of a decimal digit string; fails on any non-digit. -/
def parseDigits : List Char → Nat → Option Nat
  | [], acc => some acc
  | c :: cs, acc =>
    match digitVal c with
    | some d => parseDigits cs (acc * 10 + d)
    | none => none

/-- Surrounding whitespace stripped from a character list, as Python's
numeric parsers do before reading a literal. -/
def stripWs (cs : List Char) : List Char :=
  ((cs.dropWhile Char.isWhitespace).reverse.dropWhile Char.isWhitespace).reverse

/-- An optional leading sign: whether the value is negated, and the text
after the sign. -/
def signSplit : List Char → Bool × List Char
  | '+' :: cs => (false, cs)
  | '-' :: cs => (true, cs)
  | cs => (false, cs)

/-- The longest leading run of decimal digits (as digit values) and the
remaining text. -/
def takeDigits : List Char → List Nat × List Char
  | [] => ([], [])
  | c :: cs =>
    match digitVal c with
    | some d =>
      let r := takeDigits cs
      (d :: r.1, r.2)
    | none => ([], c :: cs)

/-- Value of a digit sequence read in base 10. -/
def digitsToNat (ds : List Nat) : Nat :=
  ds.foldl (fun a d => a * 10 + d) 0

/-- Python `int(s)`: surrounding whitespace stripped, then an optional sign
and one or more decimal digits; anything else (a decimal point, an
exponent, interior junk) raises. -/
def pyIntParse (s : String) : Option Int :=
  let sc := signSplit (stripWs s.data)
  if sc.2 = [] then none
  else
    match parseDigits sc.2 0 with
    | some n => some (if sc.1 then -(n : Int) else (n : Int))
    | none => none

/-- What `pd.to_numeric(v, errors="coerce")` makes of one element: the
missing value `NaN` (unparseable text or an already-missing cell), a
numeric value that is integral, or a numeric value that is not integral. -/
inductive NumParse where
  | na : NumParse
  | intVal : Int → NumParse
  | fracVal : NumParse
deriving DecidableEq, Repr

/-- Exact value `±m * 10 ^ (e - f)` of a decimal literal with mantissa
digits worth `m`, `f` fractional digits and exponent `e`, classified as an
integral or a non-integral number. -/
def numValue (neg : Bool) (m : Nat) (f : Nat) (e : Int) : NumParse :=
  let d : Int := e - (f : Int)
  if 0 ≤ d then
    let v : Int := (m : Int) * 10 ^ d.toNat
    .intVal (if neg then -v else v)
  else
    let p : Nat := 10 ^ (-d).toNat
    if m % p = 0 then .intVal (if neg then -((m / p : Nat) : Int) else ((m / p : Nat) : Int))
    else .fracVal

/-- Decimal-literal parser modelling `pd.to_numeric` on one string:
surrounding whitespace is stripped, then an optional sign, an integer part
and/or a fractional part, and an optional scientific exponent — so
`"12"`, `" 12 "`, `"12.0"` and `"1e3"` are the numbers 12, 12, 12 and
1000, and `"4.5"` is a non-integral number. The value is computed exactly;
any leftover text (such as the `-` separators of a formatted phone number)
fails the whole parse, which `errors="coerce"` turns into `NaN`. -/
def parseNumeric (s : String) : NumParse :=
  let sc := signSplit (stripWs s.data)
  let ipr := takeDigits sc.2
  let fpr :=
    match ipr.2 with
    | '.' :: r => takeDigits r
    | _ => ([], ipr.2)
  let m := digitsToNat (ipr.1 ++ fpr.1)
  let hasMantissa : Bool := !ipr.1.isEmpty || !fpr.1.isEmpty
  match fpr.2 with
  | 'e' :: r =>
    let esc := signSplit r
    let edr := takeDigits esc.2
    if edr.2 = [] ∧ edr.1 ≠ [] ∧ hasMantissa then
      numValue sc.1 m fpr.1.length
        (if esc.1 then -(digitsToNat edr.1 : Int) else (digitsToNat edr.1 : Int))
    else .na
  | 'E' :: r =>
    let esc := signSplit r
    let edr := takeDigits esc.2
    if edr.2 = [] ∧ edr.1 ≠ [] ∧ hasMantissa then
      numValue sc.1 m fpr.1.length
        (if esc.1 then -(digitsToNat edr.1 : Int) else (digitsToNat edr.1 : Int))
    else .na
  | [] => if hasMantissa then numValue sc.1 m fpr.1.length 0 else .na
  | _ => .na

/-- `pd.to_numeric(v, errors="coerce")` on one cell: numbers pass through,
strings are parsed as decimal literals, missing values stay missing. -/
def toNumericCell : Raw → NumParse
  | .int n => .intVal n
  | .str s => parseNumeric s
  | .null => .na
  | .nan => .na

/-- `astype("Int64")` on one converted cell: a missing value becomes the
Int64 null, an integral value becomes that integer, and a non-integral
value makes the cast raise `TypeError`, aborting the whole fetch. -/
def int64Cast : NumParse → Except String (Option Int)
  | .na => .ok none
  | .intVal n => .ok (some n)
  | .fracVal => .error "TypeError: cannot safely cast non-equivalent float64 to Int64"

/-- The lambda at scraper.py line 42:
`lambda p: None if 'x' in str(p).lower() else p`. -/
def phoneLambda (p : Raw) : Raw :=
  if containsX (pyStr p) then .null else p

/-- The whole `phone_clean` derivation at scraper.py line 42:
`pd.to_numeric(df["phone"].apply(lambda p: ...), errors="coerce").astype("Int64")`
applied to one raw phone cell; the `astype` can raise. -/
def phoneClean (p : Raw) : Except String (Option Int) :=
  int64Cast (toNumericCell (phoneLambda p))

/-- `get_designation` from scraper.py lines 26-34, verbatim over `Int`. -/
def get_designation (exp : Int) : String :=
  if exp < 3 then "System Engineer"
  else if 3 ≤ exp ∧ exp < 5 then "Data Engineer"
  else if 5 ≤ exp ∧ exp < 10 then "Senior Data Engineer"
  else "Lead"

/-- A cell of the normalized table: a text field, a plain integer field, or
the nullable-integer null used by `phone_clean`. -/
inductive Value where
  | str : String → Value
  | int : Int → Value
  | null : Value
deriving DecidableEq, Repr

/-- A normalized row: named fields in column order. -/
def Row := List (String × Value)

/-- A normalized table: its column names and its rows, each row holding one
cell per column in the same order. -/
structure Table where
  cols : List String
  rows : List Row

/-- Cell access `row[col]` inside a frame; in a well-formed table every row
has every column, so the `Value.null` default is never reached there. -/
def rowGet (r : Row) (c : String) : Value :=
  match r.find? (fun p => p.1 = c) with
  | some p => p.2
  | none => Value.null

/-- One cell of the pandas comparison `result_df[col] == value`: a missing
value on either side never matches (an NA comparison propagates, and a row
masked NA is dropped, while object cells compare `False` against `None`);
otherwise exact same-representation equality with no coercion across
types. -/
def cellEq : Value → Value → Bool
  | .null, _ => false
  | _, .null => false
  | .str a, .str b => a = b
  | .int a, .int b => a = b
  | _, _ => false

/-- The filter loop of `dynamic_cli_query` (scraper.py lines 80-83): for
each `col, value` pair in turn, if `col` is a column of the frame, keep
only the rows whose `col` cell matches `value` under the pandas
comparison; otherwise skip the pair. -/
def applyFilters (t : Table) : List (String × Value) → Table
  | [] => t
  | (c, v) :: fs =>
    if c ∈ t.cols then
      applyFilters { t with rows := t.rows.filter (fun r => cellEq (rowGet r c) v) } fs
    else
      applyFilters t fs

/-- The projection step of `dynamic_cli_query` (scraper.py lines 86-88):
`cols_to_show = [c for c in columns if c in result_df.columns]` followed by
`result_df = result_df[cols_to_show]`. -/
def applyColumns (t : Table) (cs : List String) : Table :=
  let keep := cs.filter (fun c => c ∈ t.cols)
  { cols := keep, rows := t.rows.map (fun r => keep.map (fun c => (c, rowGet r c))) }

/-- The `result_df` built by `dynamic_cli_query` before display: start from
a copy of `df`, apply the filters when the mapping is non-empty (Python
truthiness of `filters`), then project when the column list is non-empty
(Python truthiness of `columns`); an absent argument is the empty list. -/
def queryResultTable (df : Table) (filters : List (String × Value))
    (columns : List String) : Table :=
  let r1 := if filters.isEmpty then df else applyFilters df filters
  if columns.isEmpty then r1 else applyColumns r1 columns

/-- What `dynamic_cli_query` displays: the "Displaying N of M" counts and
the `result_df.head(rows)` frame. -/
structure QueryOutput where
  displayedCount : Nat
  totalCount : Nat
  displayed : Table

/-- `dynamic_cli_query` from scraper.py lines 67-95: it works on
`df.copy()`, so the second component returns the caller's frame unchanged.
`displayedCount` is `min(rows, len(result_df))`, `totalCount` is
`len(result_df)` before truncation, and `displayed` is
`result_df.head(rows)`. -/
def dynamic_cli_query (df : Table) (rows : Nat)
    (filters : List (String × Value)) (columns : List String) :
    QueryOutput × Table :=
  let res := queryResultTable df filters columns
  ({ displayedCount := min rows res.rows.length,
     totalCount := res.rows.length,
     displayed := { res with rows := res.rows.take rows } }, df)

/-- A raw record: an untyped JSON object, field name to raw value. -/
abbrev RawRecord := List (String × Raw)

/-- Frame cell access for a raw field: a field absent from the record is the
pandas `NaN` cell. -/
def rGet (r : RawRecord) (k : String) : Raw :=
  match r.find? (fun p => p.1 = k) with
  | some p => p.2
  | none => Raw.nan

/-- A nullable integer as a table cell. -/
def optIntValue : Option Int → Value
  | some n => .int n
  | none => .null

/-- Model of `astype(int)` on one cell: Python integers pass through,
strings go through `int(...)` (whitespace-stripped signed digits, so
`" 25 "` is 25 but `"4.5"` raises), and `None`/`NaN` raise. -/
def coerceInt : Raw → Option Int
  | .int n => some n
  | .str s => pyIntParse s
  | .null => none
  | .nan => none

/-- Normalization of one raw record (scraper.py lines 22-55), in source
order: derive `designation` from the raw `years_of_experience` (the
comparison `exp < 3` raises for a non-integer, so a non-integer raw value
is an uncaught error), build `full_name` by string concatenation (raises
for non-strings), derive `phone_clean` (whose `astype("Int64")` can
raise), coerce the text fields with `str`, and require `age`,
`years_of_experience` and `salary` to be integer-coercible; the result row
has the ten schema fields in the order of line 54. -/
def normalizeRecord (r : RawRecord) : Except String Row :=
  match rGet r "years_of_experience" with
  | .int exp =>
    match rGet r "first_name", rGet r "last_name" with
    | .str fn, .str ln =>
      match phoneClean (rGet r "phone") with
      | .error e => .error e
      | .ok pc =>
        match coerceInt (rGet r "age"), coerceInt (rGet r "salary") with
        | some age, some salary =>
          .ok [("full_name", .str (fn ++ " " ++ ln)),
               ("email", .str (pyStr (rGet r "email"))),
               ("phone_clean", optIntValue pc),
               ("gender", .str (pyStr (rGet r "gender"))),
               ("age", .int age),
               ("job_title", .str (pyStr (rGet r "job_title"))),
               ("years_of_experience", .int exp),
               ("salary", .int salary),
               ("department", .str (pyStr (rGet r "department"))),
               ("designation", .str (get_designation exp))]
        | _, _ => .error "ValueError: required numeric field not integer-coercible"
    | _, _ => .error "TypeError: full_name needs string first_name and last_name"
  | _ => .error "TypeError: years_of_experience is not an integer"

/-- A parsed response body, by the shapes `pd.DataFrame` distinguishes: a
JSON array of objects (list of records), a JSON object of field name to
column list (pandas' dict-of-lists constructor), or a scalar-like value
(number, string, ...) the constructor rejects. -/
inductive Body where
  | arr : List RawRecord → Body
  | obj : List (String × List Raw) → Body
  | scalar : Body

/-- Whether the body is a JSON array of objects. -/
def isArrayBody : Body → Bool
  | .arr _ => true
  | _ => false

/-- All column lists of a dict-of-lists body have the same length. -/
def columnLengthsEqual : List (String × List Raw) → Bool
  | [] => true
  | (_, vs) :: rest => rest.all (fun p => p.2.length = vs.length)

/-- Number of rows a dict-of-lists body yields. -/
def objRowCount : List (String × List Raw) → Nat
  | [] => 0
  | (_, vs) :: _ => vs.length

/-- Row `i` of a dict-of-lists body: each field paired with entry `i` of
its column (in range whenever the column lengths are equal). -/
def objRow (cols : List (String × List Raw)) (i : Nat) : RawRecord :=
  cols.map (fun p => (p.1, p.2.getD i Raw.nan))

/-- `pd.DataFrame(data)` on a parsed body: a list of records is taken as
the rows; a dict of field to column list builds the rows by position when
the columns have equal lengths and raises `ValueError` otherwise; a scalar
body makes the constructor raise `ValueError`. There is no
array-of-objects check anywhere in the code. -/
def toFrame : Body → Except String (List RawRecord)
  | .arr rs => .ok rs
  | .obj cols =>
    if columnLengthsEqual cols then
      .ok ((List.range (objRowCount cols)).map (objRow cols))
    else .error "ValueError: All arrays must be of the same length"
  | .scalar => .error "ValueError: DataFrame constructor not properly called"

/-- Building and normalizing the frame from a parsed body: any failure of
the constructor or of a record's normalization raises outside the
`except requests.exceptions.RequestException` clause and aborts the
fetch. -/
def normalizeBody (b : Body) : Except String (List Row) :=
  match toFrame b with
  | .error e => .error e
  | .ok rs => rs.mapM normalizeRecord

/-- The outcome of one HTTP attempt: a `requests.exceptions.RequestException`
(network failure, timeout, or the `raise_for_status` of a non-2xx answer),
or a response whose body parsed to `Body`. -/
inductive Attempt where
  | requestError : String → Attempt
  | success : Body → Attempt

/-- How a call to `scrape_employees` ends: the normalized table, a
re-raised `RequestException` from the last attempt, an uncaught error from
frame construction or normalization, or the fall-through `ValueError`. -/
inductive FetchResult where
  | ok : List Row → FetchResult
  | raisedRequestError : String → FetchResult
  | raisedNormalizationError : String → FetchResult
  | exhausted : FetchResult

/-- The retry loop of `scrape_employees` (scraper.py lines 16-61) from
attempt number `i` on: the list holds the outcome each remaining attempt
would produce, so that its length is `max_retries - i`. A successful
attempt returns the normalized table at once, or raises the normalization
error — only `RequestException` is caught. A caught failure re-raises on
the last attempt and otherwise sleeps `2 ^ attempt` before retrying; the
second component collects the sleeps in order. The empty list is the
fall-through `raise ValueError` after the loop. -/
def scrapeGo (i : Nat) : List Attempt → FetchResult × List Nat
  | [] => (.exhausted, [])
  | .success b :: _ =>
    match normalizeBody b with
    | .ok rows => (.ok rows, [])
    | .error e => (.raisedNormalizationError e, [])
  | .requestError e :: rest =>
    if rest.isEmpty then (.raisedRequestError e, [])
    else ((scrapeGo (i + 1) rest).1, 2 ^ i :: (scrapeGo (i + 1) rest).2)

/-- `scrape_employees(url, max_retries)` as a function of the outcomes of
its `max_retries` attempts: the terminal result and the backoff sleeps
performed, in order. -/
def scrape_employees (attempts : List Attempt) : FetchResult × List Nat :=
  scrapeGo 0 attempts

/-- The sample raw record from the repository's test fixture. -/
def sampleRecord : RawRecord :=
  [("id", .int 1), ("first_name", .str "Jose"), ("last_name", .str "Lopez"),
   ("email", .str "test@email.com"), ("phone", .str "+1-971-533-4552x1542"),
   ("gender", .str "male"), ("age", .int 25), ("job_title", .str "Project Manager"),
   ("years_of_experience", .int 1), ("salary", .int 8500), ("department", .str "Product")]

/-- The normalized row the sample record produces. -/
def joseRow : Row :=
  [("full_name", .str "Jose Lopez"), ("email", .str "test@email.com"),
   ("phone_clean", Value.null), ("gender", .str "male"), ("age", .int 25),
   ("job_title", .str "Project Manager"), ("years_of_experience", .int 1),
   ("salary", .int 8500), ("department", .str "Product"),
   ("designation", .str "System Engineer")]

/-- The same sample data shipped as a JSON object of field name to
column list instead of an array of objects — pandas' dict-of-lists
constructor accepts it. -/
def sampleObjBody : Body :=
  .obj [("id", [.int 1]), ("first_name", [.str "Jose"]), ("last_name", [.str "Lopez"]),
        ("email", [.str "test@email.com"]), ("phone", [.str "+1-971-533-4552x1542"]),
        ("gender", [.str "male"]), ("age", [.int 25]),
        ("job_title", [.str "Project Manager"]), ("years_of_experience", [.int 1]),
        ("salary", [.int 8500]), ("department", [.str "Product"])]

/-- A record whose required numeric field `age` is not integer-coercible. -/
def badAgeRecord : RawRecord :=
  [("first_name", .str "Ada"), ("last_name", .str "Smith"),
   ("years_of_experience", .int 4), ("age", .str "old"), ("salary", .int 1)]

/-- A one-row table whose `phone_clean` cell is the Int64 null. -/
def nullPhoneTable : Table :=
  { cols := ["phone_clean"], rows := [[("phone_clean", Value.null)]] }

/-- A small concrete normalized table used to exercise the query engine. -/
def sampleTable : Table :=
  { cols := ["full_name", "department", "gender"],
    rows := [
      [("full_name", .str "Jose Lopez"), ("department", .str "Product"), ("gender", .str "male")],
      [("full_name", .str "Ada Smith"), ("department", .str "Sales"), ("gender", .str "female")],
      [("full_name", .str "Bo Chen"), ("department", .str "Product"), ("gender", .str "female")]] }

end Scraper

namespace Scraper

/-- C2: for every integer years-of-experience value `y` the derived
designation matches exactly one band, with no gap or overlap: `y < 3`
(negatives included) gives "System Engineer", `3 ≤ y < 5` gives
"Data Engineer", `5 ≤ y < 10` gives "Senior Data Engineer", and `y ≥ 10`
gives "Lead"; exactly one of the four band conditions holds for each `y`. -/
theorem designation_bands (y : Int) :
    (y < 3 ∧ get_designation y = "System Engineer"
      ∧ ¬(3 ≤ y ∧ y < 5) ∧ ¬(5 ≤ y ∧ y < 10) ∧ ¬(10 ≤ y))
  ∨ ((3 ≤ y ∧ y < 5) ∧ get_designation y = "Data Engineer"
      ∧ ¬(y < 3) ∧ ¬(5 ≤ y ∧ y < 10) ∧ ¬(10 ≤ y))
  ∨ ((5 ≤ y ∧ y < 10) ∧ get_designation y = "Senior Data Engineer"
      ∧ ¬(y < 3) ∧ ¬(3 ≤ y ∧ y < 5) ∧ ¬(10 ≤ y))
  ∨ (10 ≤ y ∧ get_designation y = "Lead"
      ∧ ¬(y < 3) ∧ ¬(3 ≤ y ∧ y < 5) ∧ ¬(5 ≤ y ∧ y < 10)) := by
  unfold get_designation
  split_ifs with h1 h2 h3
  · exact Or.inl ⟨h1, rfl, by omega, by omega, by omega⟩
  · exact Or.inr (Or.inl ⟨h2, rfl, by omega, by omega, by omega⟩)
  · exact Or.inr (Or.inr (Or.inl ⟨h3, rfl, by omega, by omega, by omega⟩))
  · exact Or.inr (Or.inr (Or.inr ⟨by omega, rfl, by omega, by omega, by omega⟩))

/-- C3: a raw phone value whose text contains the character x,
case-insensitively and anywhere in the string, normalizes without error to
a null `phone_clean`. -/
theorem phone_with_x_is_null (p : Raw) (h : containsX (pyStr p) = true) :
    phoneClean p = Except.ok none := by
  unfold phoneClean phoneLambda
  rw [h]
  rfl

/-- C3 witness: the sample phone `"+1-971-533-4552x1542"` contains an x and
cleans to null. -/
theorem phone_with_x_is_null_witness :
    containsX (pyStr (Raw.str "+1-971-533-4552x1542")) = true
      ∧ phoneClean (Raw.str "+1-971-533-4552x1542") = Except.ok none :=
  ⟨by decide, phone_with_x_is_null (Raw.str "+1-971-533-4552x1542") (by decide)⟩

/-- C10: a raw phone cell that is JSON null (Python `None`) or absent
(pandas `NaN`) normalizes without error to a null `phone_clean`: its
missing-value text ("None" resp. "nan") contains no x, and numeric coercion
of the missing value yields null. -/
theorem phone_missing_is_null :
    containsX (pyStr Raw.null) = false
      ∧ containsX (pyStr Raw.nan) = false
      ∧ phoneClean Raw.null = Except.ok none
      ∧ phoneClean Raw.nan = Except.ok none := by
  refine ⟨by decide, by decide, rfl, rfl⟩

/-- The filter loop never changes the column list of the frame. -/
theorem applyFilters_cols (fs : List (String × Value)) (t : Table) :
    (applyFilters t fs).cols = t.cols := by
  induction fs generalizing t with
  | nil => rfl
  | cons cv fs ih =>
    obtain ⟨c, v⟩ := cv
    by_cases h : c ∈ t.cols
    · simp only [applyFilters, if_pos h]
      exact ih _
    · simp only [applyFilters, if_neg h]
      exact ih t

/-- The filter loop keeps exactly the rows on which every filter pair that
names an existing column matches under the pandas cell comparison, in
their original order. -/
theorem applyFilters_rows (fs : List (String × Value)) (t : Table) :
    (applyFilters t fs).rows
      = t.rows.filter
          (fun r => decide (∀ cv ∈ fs, cv.1 ∈ t.cols → cellEq (rowGet r cv.1) cv.2 = true)) := by
  induction fs generalizing t with
  | nil => simp [applyFilters]
  | cons cv fs ih =>
    obtain ⟨c, v⟩ := cv
    by_cases h : c ∈ t.cols
    · simp only [applyFilters, if_pos h]
      rw [ih]
      dsimp only
      rw [List.filter_filter]
      refine List.filter_congr ?_
      intro r _
      have hb : cellEq (rowGet r c) v = decide (cellEq (rowGet r c) v = true) := by
        cases cellEq (rowGet r c) v <;> rfl
      rw [hb, ← Bool.decide_and, decide_eq_decide, List.forall_mem_cons]
      constructor
      · rintro ⟨h1, h2⟩
        exact ⟨fun _ => h2, h1⟩
      · rintro ⟨h1, h2⟩
        exact ⟨h2, h1 h⟩
    · simp only [applyFilters, if_neg h]
      rw [ih]
      refine List.filter_congr ?_
      intro r _
      simp [List.forall_mem_cons, h]

/-- C6 counterexample: a row whose stored `phone_clean` is the Int64 null
and a filter requesting exactly that null value: the stored value equals
the filter value, yet the program's NA comparison never matches, so the
query drops the row and reports zero matches — the claim's keep-iff-equal
biconditional fails. -/
theorem filter_null_counterexample :
    rowGet [(("phone_clean" : String), Value.null)] "phone_clean" = Value.null
      ∧ (("phone_clean" : String) ∈ nullPhoneTable.cols)
      ∧ (dynamic_cli_query nullPhoneTable 1
          [("phone_clean", Value.null)] []).1.displayed.rows = []
      ∧ (dynamic_cli_query nullPhoneTable 1
          [("phone_clean", Value.null)] []).1.totalCount = 0 := by
  refine ⟨rfl, by decide, rfl, rfl⟩

/-- C6 amended: with a non-empty filter mapping, the query keeps a row
exactly when every filter pair naming an existing column matches the
row's stored value under the pandas comparison — exact same-representation
equality with no coercion, except that a null on either side never
matches; pairs naming unknown columns are ignored, the kept rows stay in
input order, and the columns are unchanged. -/
theorem filter_conjunction_semantics (df : Table) (fs : List (String × Value))
    (h : fs ≠ []) :
    (dynamic_cli_query df df.rows.length fs []).1.displayed.rows
        = df.rows.filter
            (fun r => decide (∀ cv ∈ fs, cv.1 ∈ df.cols → cellEq (rowGet r cv.1) cv.2 = true))
      ∧ (dynamic_cli_query df df.rows.length fs []).1.displayed.cols = df.cols := by
  have hres : queryResultTable df fs [] = applyFilters df fs := by
    unfold queryResultTable
    simp [List.isEmpty_iff, h]
  constructor
  · show (queryResultTable df fs []).rows.take df.rows.length = _
    rw [hres, applyFilters_rows]
    exact List.take_of_length_le (List.length_filter_le _ _)
  · show (queryResultTable df fs []).cols = df.cols
    rw [hres]
    exact applyFilters_cols fs df

/-- C6 witness: filtering the sample table by department "Product". -/
theorem filter_conjunction_semantics_witness :
    ([(("department" : String), Value.str "Product")] ≠ [])
      ∧ ((dynamic_cli_query sampleTable sampleTable.rows.length
            [("department", Value.str "Product")] []).1.displayed.rows
          = sampleTable.rows.filter
              (fun r => decide (∀ cv ∈ [(("department" : String), Value.str "Product")],
                cv.1 ∈ sampleTable.cols → cellEq (rowGet r cv.1) cv.2 = true))
        ∧ (dynamic_cli_query sampleTable sampleTable.rows.length
            [("department", Value.str "Product")] []).1.displayed.cols
          = sampleTable.cols) :=
  ⟨by decide,
   filter_conjunction_semantics sampleTable [("department", Value.str "Product")]
     (by decide)⟩

/-- C7: with no filters and a non-empty requested column list, the query
projects each row to exactly the requested columns that exist in the
schema, in the requested order, silently dropping unknown names. -/
theorem projection_semantics (df : Table) (cs : List String) (h : cs ≠ []) :
    (dynamic_cli_query df df.rows.length [] cs).1.displayed.cols
        = cs.filter (fun c => decide (c ∈ df.cols))
      ∧ (dynamic_cli_query df df.rows.length [] cs).1.displayed.rows
        = df.rows.map (fun r =>
            (cs.filter (fun c => decide (c ∈ df.cols))).map (fun c => (c, rowGet r c))) := by
  have hres : queryResultTable df [] cs = applyColumns df cs := by
    unfold queryResultTable
    simp [List.isEmpty_iff, h]
  constructor
  · show (queryResultTable df [] cs).cols = _
    rw [hres]
    rfl
  · show (queryResultTable df [] cs).rows.take df.rows.length = _
    rw [hres]
    exact List.take_of_length_le (le_of_eq (List.length_map _ _))

/-- C7 witness: projecting the sample table to gender, an unknown name, and
full_name, in that order. -/
theorem projection_semantics_witness :
    ((["gender", "bogus", "full_name"] : List String) ≠ [])
      ∧ ((dynamic_cli_query sampleTable sampleTable.rows.length []
            ["gender", "bogus", "full_name"]).1.displayed.cols
          = (["gender", "bogus", "full_name"] : List String).filter
              (fun c => decide (c ∈ sampleTable.cols))
        ∧ (dynamic_cli_query sampleTable sampleTable.rows.length []
            ["gender", "bogus", "full_name"]).1.displayed.rows
          = sampleTable.rows.map (fun r =>
              ((["gender", "bogus", "full_name"] : List String).filter
                (fun c => decide (c ∈ sampleTable.cols))).map (fun c => (c, rowGet r c)))) :=
  ⟨by decide,
   projection_semantics sampleTable ["gender", "bogus", "full_name"] (by decide)⟩

/-- C8: the query truncates the filtered (and possibly projected) result to
its first `min limit M` rows, where `M` is the number of rows that matched
the filter; `limit = 0` yields no rows; and the reported counts are the
number of displayed rows and the pre-truncation match count `M`. -/
theorem limit_semantics (df : Table) (r : Nat) (fs : List (String × Value))
    (cs : List String) :
    (dynamic_cli_query df r fs cs).1.totalCount = (queryResultTable df fs cs).rows.length
      ∧ (queryResultTable df fs cs).rows.length
          = (if fs.isEmpty then df else applyFilters df fs).rows.length
      ∧ (dynamic_cli_query df r fs cs).1.displayed.rows
          = (queryResultTable df fs cs).rows.take r
      ∧ (dynamic_cli_query df r fs cs).1.displayed.rows.length
          = min r (queryResultTable df fs cs).rows.length
      ∧ (dynamic_cli_query df r fs cs).1.displayedCount
          = min r (queryResultTable df fs cs).rows.length
      ∧ (dynamic_cli_query df 0 fs cs).1.displayed.rows = [] := by
  refine ⟨rfl, ?_, rfl, ?_, rfl, rfl⟩
  · unfold queryResultTable
    by_cases hc : cs.isEmpty <;> simp [hc, applyColumns]
  · show ((queryResultTable df fs cs).rows.take r).length = _
    rw [List.length_take]

/-- C9: the query engine is pure: it hands the caller's table back
unchanged, and querying the returned table again with identical arguments
yields an identical result — no hidden state mutation. -/
theorem query_engine_pure (df : Table) (r : Nat) (fs : List (String × Value))
    (cs : List String) :
    (dynamic_cli_query df r fs cs).2 = df
      ∧ dynamic_cli_query ((dynamic_cli_query df r fs cs).2) r fs cs
          = dynamic_cli_query df r fs cs :=
  ⟨rfl, rfl⟩

/-- A run of caught request failures, none of them last, contributes one
backoff sleep of `2 ^ attempt` per failure, and the loop then continues at
the next attempt number. -/
theorem scrapeGo_requestError_run (es : List String) (i : Nat) (a : Attempt)
    (rest : List Attempt) :
    scrapeGo i (es.map Attempt.requestError ++ a :: rest)
      = ((scrapeGo (i + es.length) (a :: rest)).1,
         (List.range es.length).map (fun j => 2 ^ (i + j))
           ++ (scrapeGo (i + es.length) (a :: rest)).2) := by
  induction es generalizing i with
  | nil => simp
  | cons e es ih =>
    have hne : (es.map Attempt.requestError ++ a :: rest).isEmpty = false := by
      cases es.map Attempt.requestError with
      | nil => simp
      | cons x xs => simp
    simp only [List.map_cons, List.cons_append, scrapeGo, List.append_eq, hne,
      Bool.false_eq_true, if_false]
    rw [ih (i + 1)]
    simp only [List.length_cons]
    have harg : i + 1 + es.length = i + (es.length + 1) := by omega
    rw [harg]
    simp only [List.range_succ_eq_map, List.map_cons, List.map_map, List.cons_append,
      Nat.add_zero]
    congr 2
    congr 1
    refine List.map_congr_left ?_
    intro j hj
    simp only [Function.comp]
    congr 1
    omega

/-- C1: with `n ≥ 1` attempts, after each caught failure that is not the
last the loop sleeps exactly `2 ^ attempt` (attempt 0 sleeps 1 unit,
attempt 1 sleeps 2, ...); a success at any attempt returns the normalized
table immediately with no further sleep; and when the last attempt also
fails, the failure is re-raised carrying the underlying cause, with no
sleep after it. -/
theorem retry_backoff_policy (es : List String) (e : String) (b : Body)
    (t : List Row) (hb : normalizeBody b = .ok t) (rest : List Attempt) :
    scrape_employees (es.map Attempt.requestError ++ Attempt.success b :: rest)
        = (.ok t, (List.range es.length).map (fun j => 2 ^ j))
      ∧ scrape_employees (es.map Attempt.requestError ++ [Attempt.requestError e])
        = (.raisedRequestError e, (List.range es.length).map (fun j => 2 ^ j)) := by
  constructor
  · unfold scrape_employees
    rw [scrapeGo_requestError_run]
    simp [scrapeGo, hb]
  · unfold scrape_employees
    rw [scrapeGo_requestError_run]
    simp [scrapeGo]

/-- C1 witness: two timeouts then a good body sleep 1 then 2 units and
return the normalized sample table; three straight failures propagate the
last cause with no third sleep. -/
theorem retry_backoff_policy_witness :
    normalizeBody (Body.arr [sampleRecord]) = Except.ok [joseRow]
      ∧ (scrape_employees ((["boom 1", "boom 2"].map Attempt.requestError)
            ++ Attempt.success (Body.arr [sampleRecord]) :: [])
          = (.ok [joseRow], [1, 2])
        ∧ scrape_employees ((["boom 1", "boom 2"].map Attempt.requestError)
            ++ [Attempt.requestError "boom 3"])
          = (.raisedRequestError "boom 3", [1, 2])) :=
  ⟨rfl, retry_backoff_policy ["boom 1", "boom 2"] "boom 3"
    (Body.arr [sampleRecord]) [joseRow] rfl []⟩

/-- C5 counterexample: the sample data sent as a JSON object of field name
to column list — not a JSON array of objects — raises no schema error at
all: `pd.DataFrame` accepts the dict-of-lists shape, and the fetch
normalizes it successfully, so the claim that every non-array body is
surfaced as a schema error is false of the program. -/
theorem nonarray_body_normalizes :
    isArrayBody sampleObjBody = false
      ∧ normalizeBody sampleObjBody = Except.ok [joseRow]
      ∧ scrape_employees [Attempt.success sampleObjBody] = (.ok [joseRow], []) :=
  ⟨rfl, rfl, rfl⟩

/-- C5 amended: whenever building or normalizing the frame from a fetched
body raises — a scalar body the `DataFrame` constructor rejects, a
dict-of-lists body with unequal column lengths, or a record whose required
numeric field is not integer-coercible — the error is surfaced immediately
and never retried: whatever attempts remain, the loop performs no further
attempt and no backoff sleep after it. (A non-array body as such is not
necessarily an error: a JSON object of field name to column list
normalizes successfully.) -/
theorem schema_error_not_retried (es : List String) (b : Body) (e : String)
    (hb : normalizeBody b = .error e) (rest : List Attempt) :
    scrape_employees (es.map Attempt.requestError ++ Attempt.success b :: rest)
      = (.raisedNormalizationError e, (List.range es.length).map (fun j => 2 ^ j)) := by
  unfold scrape_employees
  rw [scrapeGo_requestError_run]
  simp [scrapeGo, hb]

/-- C5 witness: a scalar body on the first attempt is raised with no sleep,
even though a second attempt with a good array body was still available;
likewise a record whose `age` is not integer-coercible. -/
theorem schema_error_not_retried_witness :
    (normalizeBody Body.scalar
        = Except.error "ValueError: DataFrame constructor not properly called"
      ∧ scrape_employees
          [Attempt.success Body.scalar, Attempt.success (Body.arr [sampleRecord])]
        = (.raisedNormalizationError "ValueError: DataFrame constructor not properly called",
           []))
      ∧ (normalizeBody (Body.arr [badAgeRecord])
          = Except.error "ValueError: required numeric field not integer-coercible"
        ∧ scrape_employees
            [Attempt.success (Body.arr [badAgeRecord]),
             Attempt.success (Body.arr [sampleRecord])]
          = (.raisedNormalizationError "ValueError: required numeric field not integer-coercible",
             [])) :=
  ⟨⟨rfl, schema_error_not_retried [] Body.scalar
      "ValueError: DataFrame constructor not properly called" rfl
      [Attempt.success (Body.arr [sampleRecord])]⟩,
   ⟨rfl, schema_error_not_retried [] (Body.arr [badAgeRecord])
      "ValueError: required numeric field not integer-coercible" rfl
      [Attempt.success (Body.arr [sampleRecord])]⟩⟩

end Scraper
